import Mathlib

/-!
Verification of the DataVisualizerPro core components against their
natural-language specification.

The development shallowly embeds the three core components of the
repository — the file loader (`src/utils/file_handler.py`), the data
analyzer (`src/utils/data_analyzer.py`) and the chart generator
(`src/utils/chart_generator.py`) — as executable Lean definitions over a
tabular data model, and proves the specified properties about them.

Modelling conventions:
* Python/pandas floating point numbers are modelled as exact rationals
  (`ℚ`); NaN results are modelled with `Option`.
* Quantities of the form `q·√r` (standard deviation, skewness, Pearson
  correlation before rounding) are represented by the pair `(q, r)` of
  rationals, so that every definition stays executable; theorems relate
  this representation to the real value `q * Real.sqrt r`.
* A pandas `DataFrame` is modelled row-major as a list of column names
  together with a list of rows; cell lookups out of range yield nulls.
* pandas `groupby` sorts group keys; this is modelled with an insertion
  sort under a total comparison on cells.
-/

namespace DataViz

/-- JSON values, as produced by Python's `json.load`.  Numbers are modelled
as exact rationals. -/
inductive JsonV where
  | null
  | boolv (b : Bool)
  | num (q : ℚ)
  | str (s : String)
  | arr (elems : List JsonV)
  | obj (fields : List (String × JsonV))

mutual

/-- Injective textual rendering of a JSON value; used to store non-scalar
JSON values as opaque-but-comparable object cells. -/
def JsonV.render : JsonV → String
  | .null => "null"
  | .boolv b => if b then "true" else "false"
  | .num q => toString q
  | .str s => "\"" ++ s ++ "\""
  | .arr es => "[" ++ JsonV.renderL es ++ "]"
  | .obj fs => "\x7b" ++ JsonV.renderKV fs ++ "\x7d"

/-- Render a list of JSON values, comma separated. -/
def JsonV.renderL : List JsonV → String
  | [] => ""
  | [e] => JsonV.render e
  | e :: es => JsonV.render e ++ "," ++ JsonV.renderL es

/-- Render the fields of a JSON object, comma separated. -/
def JsonV.renderKV : List (String × JsonV) → String
  | [] => ""
  | [(k, v)] => "\"" ++ k ++ "\":" ++ JsonV.render v
  | (k, v) :: fs => "\"" ++ k ++ "\":" ++ JsonV.render v ++ "," ++ JsonV.renderKV fs

end

/-- A cell of the tabular container: numeric, text, boolean or null.
`jval` holds the rendering of a non-scalar JSON value that pandas would
store as an opaque object cell (e.g. a nested list). -/
inductive Cell where
  | null
  | num (q : ℚ)
  | str (s : String)
  | boolv (b : Bool)
  | jval (rendered : String)
  deriving DecidableEq

/-- The tabular container: named columns and a list of rows
(`pandas.DataFrame`, row-major). -/
structure DFrame where
  columns : List String
  rows : List (List Cell)
  deriving DecidableEq

/-- Number of rows (`len(df)`). -/
def DFrame.nrows (df : DFrame) : ℕ := df.rows.length

/-- The cells of a named column; a missing column yields no cells, and a
row that is too short yields nulls. -/
def DFrame.getCol (df : DFrame) (c : String) : List Cell :=
  match df.columns.indexOf? c with
  | some i => df.rows.map (fun r => r.getD i Cell.null)
  | none => []

/-- Numeric view of a cell (`None` for anything that is not a number). -/
def Cell.toNum : Cell → Option ℚ
  | Cell.num q => some q
  | _ => none

/-- Is this cell a null (pandas `NaN`)? -/
def Cell.isNull : Cell → Bool
  | Cell.null => true
  | _ => false

/-- The non-null numeric values of a column, in row order (pandas skips
`NaN` in reductions). -/
def DFrame.numsOf (df : DFrame) (c : String) : List ℚ :=
  (df.getCol c).filterMap Cell.toNum

/-- Insert into a list sorted by `le` (helper for the sort model). -/
def insertLe {α : Type} (le : α → α → Bool) (a : α) : List α → List α
  | [] => [a]
  | b :: l => if le a b then a :: b :: l else b :: insertLe le a l

/-- Insertion sort, modelling pandas sorting (`groupby` key order,
`sort_values`).  Ties keep their input order; no verified claim depends
on the tie-breaking of the source's unstable sort. -/
def sortLe {α : Type} (le : α → α → Bool) : List α → List α
  | [] => []
  | a :: l => insertLe le a (sortLe le l)

theorem length_insertLe {α : Type} (le : α → α → Bool) (a : α) (l : List α) :
    (insertLe le a l).length = l.length + 1 := by
  induction l with
  | nil => rfl
  | cons b t ih =>
    simp only [insertLe]
    split <;> simp [ih]

theorem length_sortLe {α : Type} (le : α → α → Bool) (l : List α) :
    (sortLe le l).length = l.length := by
  induction l with
  | nil => rfl
  | cons a t ih => simp [sortLe, length_insertLe, ih]

/-- Rank used to compare cells of different runtime types; pandas would
raise on such comparisons, which no claim exercises. -/
def Cell.rank : Cell → ℕ
  | Cell.null => 0
  | Cell.num _ => 1
  | Cell.str _ => 2
  | Cell.boolv _ => 3
  | Cell.jval _ => 4

/-- Total comparison on cells: numbers by value, strings
lexicographically, mixed types by rank. -/
def cellLe (a b : Cell) : Bool :=
  match a, b with
  | Cell.num p, Cell.num q => decide (p ≤ q)
  | Cell.str s, Cell.str t => decide (s < t) || decide (s = t)
  | Cell.boolv x, Cell.boolv y => !x || y
  | x, y => decide (x.rank ≤ y.rank)

/-- The distinct non-null values of a column (`Series.unique` up to
order). -/
def DFrame.distinctNonNull (df : DFrame) (c : String) : List Cell :=
  ((df.getCol c).filter (fun v => !v.isNull)).dedup

/-- Model of `df[c].nunique()`: number of distinct non-null values. -/
def DFrame.nuniqueNonNull (df : DFrame) (c : String) : ℕ :=
  (df.distinctNonNull c).length

/-- Sum of the y-column over the rows whose x-cell equals `k`, skipping
non-numeric y-cells (pandas group sums skip `NaN`). -/
def groupYSum (df : DFrame) (x y : String) (k : Cell) : ℚ :=
  (((df.getCol x).zip (df.getCol y)).filterMap
    (fun p => if p.1 = k then p.2.toNum else none)).sum

/-- Model of `df.groupby(x)[y].sum().reset_index()`: one `(key, sum)` pair per
distinct non-null x-value, keys in sorted order. -/
def groupBySum (df : DFrame) (x y : String) : List (Cell × ℚ) :=
  (sortLe cellLe (df.distinctNonNull x)).map (fun k => (k, groupYSum df x y k))

theorem length_groupBySum (df : DFrame) (x y : String) :
    (groupBySum df x y).length = df.nuniqueNonNull x := by
  simp [groupBySum, length_sortLe, DFrame.nuniqueNonNull]

/-- The chart specification produced by the generator: the data series
plus the layout directives that the claims inspect.  Field defaults model
a freshly constructed plotly-express figure (no explicit title position,
no explicit axis titles, default `"plotly"` template). -/
structure Figure where
  kind : String
  points : List (Cell × Cell) := []
  slices : List (Cell × ℚ) := []
  hole : ℚ := 0
  title : String := ""
  height : ℕ := 400
  color_field : Option String := none
  markers : Bool := false
  boxed : Bool := false
  tickangle : Option ℤ := none
  title_x : Option ℚ := none
  xaxis_title : Option String := none
  yaxis_title : Option String := none
  template : String := "plotly"
  deriving DecidableEq

/-- Model of `px.bar`. -/
def px_bar (df : DFrame) (x y t : String) (color : Option String) (h : ℕ) : Figure :=
  { kind := "bar", points := (df.getCol x).zip (df.getCol y), title := t,
    color_field := color, height := h }

/-- Model of `px.line` (with markers). -/
def px_line (df : DFrame) (x y t : String) (h : ℕ) : Figure :=
  { kind := "line", points := (df.getCol x).zip (df.getCol y), title := t,
    markers := true, height := h }

/-- Model of `px.scatter`. -/
def px_scatter (df : DFrame) (x y t : String) (color : Option String) (h : ℕ) : Figure :=
  { kind := "scatter", points := (df.getCol x).zip (df.getCol y), title := t,
    color_field := color, height := h }

/-- Model of `px.pie` over pre-aggregated `(name, value)` data, with a hole
fraction (`0` for pie, `0.4` for donut). -/
def px_pie (pie_data : List (Cell × ℚ)) (t : String) (h : ℕ) (hole : ℚ) : Figure :=
  { kind := "pie", slices := pie_data, title := t, height := h, hole := hole }

/-- Model of `px.area`. -/
def px_area (df : DFrame) (x y t : String) (h : ℕ) : Figure :=
  { kind := "area", points := (df.getCol x).zip (df.getCol y), title := t, height := h }

/-- Model of `px.histogram` (x only; optional color encoding by another column). -/
def px_histogram (df : DFrame) (x t : String) (h : ℕ) (color : Option String) : Figure :=
  { kind := "histogram", points := (df.getCol x).map (fun v => (v, Cell.null)),
    title := t, height := h, color_field := color }

/-- Model of `px.box`. -/
def px_box (df : DFrame) (x y t : String) (h : ℕ) (color : Option String) : Figure :=
  { kind := "box", points := (df.getCol x).zip (df.getCol y), title := t,
    height := h, color_field := color }

/-- Model of `px.violin` (with embedded box plot). -/
def px_violin (df : DFrame) (x y t : String) (h : ℕ) : Figure :=
  { kind := "violin", points := (df.getCol x).zip (df.getCol y), title := t,
    height := h, boxed := true }

/-- The `fig.update_layout(...)` call of `generate_chart`: center the
title, label both axes (no y-axis label for pie/donut), choose the
gridline template from the show-grid flag. -/
def update_layout (fig : Figure) (chart_type x_column y_column : String)
    (show_grid : Bool) : Figure :=
  { fig with
    title_x := some (1/2)
    xaxis_title := some x_column
    yaxis_title := if chart_type = "pie" ∨ chart_type = "donut" then none else some y_column
    template := if show_grid then "plotly" else "plotly_white" }

/-- The grouped pie data sorted descending by summed y
(`pie_data.sort_values(by=y_column, ascending=False)`). -/
def sortedPie (df : DFrame) (x y : String) : List (Cell × ℚ) :=
  sortLe (fun a b => decide (b.2 ≤ a.2)) (groupBySum df x y)

/-- Model of `sorted_data.head(9)`: the top 9 groups. -/
def topData (df : DFrame) (x y : String) : List (Cell × ℚ) :=
  (sortedPie df x y).take 9

/-- Model of `sorted_data.iloc[9:][y_column].sum()`: the summed remainder. -/
def otherSum (df : DFrame) (x y : String) : ℚ :=
  (((sortedPie df x y).drop 9).map Prod.snd).sum

/-- Model of `available_chart_types` from `src/utils/chart_generator.py`. -/
def available_chart_types : List String :=
  ["bar", "line", "scatter", "pie", "area", "histogram", "box", "violin"]

/-- Model of `generate_chart` from `src/utils/chart_generator.py`: build the
per-type figure, apply the layout normalization, then apply the
many-category adjustments (bar tick angle; pie/donut top-9 + "Other"
rebuild when the remainder is positive). -/
def generate_chart (df : DFrame) (chart_type x_column y_column : String)
    (title : Option String) (use_color : Bool) (height : ℕ) (show_grid : Bool) :
    Except String Figure :=
  let t := title.getD (y_column ++ " by " ++ x_column)
  let fig0 : Except String Figure :=
    if chart_type = "bar" then
      .ok (px_bar df x_column y_column t (if use_color then some x_column else none) height)
    else if chart_type = "line" then
      .ok (px_line df x_column y_column t height)
    else if chart_type = "scatter" then
      .ok (px_scatter df x_column y_column t (if use_color then some x_column else none) height)
    else if chart_type = "pie" then
      .ok (px_pie (groupBySum df x_column y_column) t height 0)
    else if chart_type = "donut" then
      .ok (px_pie (groupBySum df x_column y_column) t height (2/5))
    else if chart_type = "area" then
      .ok (px_area df x_column y_column t height)
    else if chart_type = "histogram" then
      .ok (px_histogram df x_column t height (if use_color then some y_column else none))
    else if chart_type = "box" then
      .ok (px_box df x_column y_column t height (if use_color then some x_column else none))
    else if chart_type = "violin" then
      .ok (px_violin df x_column y_column t height)
    else
      .error ("Unsupported chart type: " ++ chart_type)
  match fig0 with
  | .error e => .error e
  | .ok fig =>
    let fig := update_layout fig chart_type x_column y_column show_grid
    let fig :=
      if chart_type = "bar" ∨ chart_type = "pie" ∨ chart_type = "donut" then
        if 10 < df.nuniqueNonNull x_column then
          if chart_type = "bar" then
            { fig with tickangle := some (-45) }
          else
            let other_value := otherSum df x_column y_column
            if 0 < other_value then
              px_pie (topData df x_column y_column ++ [(Cell.str "Other", other_value)])
                t height (if chart_type = "donut" then 2/5 else 0)
            else fig
        else fig
      else fig
    .ok fig

/-- The end-to-end example dataset `name,sales / A,10 / B,20 / A,5`. -/
def dfAB : DFrame :=
  { columns := ["name", "sales"],
    rows := [[Cell.str "A", Cell.num 10],
             [Cell.str "B", Cell.num 20],
             [Cell.str "A", Cell.num 5]] }

theorem generate_chart_pie_eq (df : DFrame) (x y : String) (title : Option String)
    (uc : Bool) (h : ℕ) (sg : Bool) :
    generate_chart df "pie" x y title uc h sg =
      .ok (if 10 < df.nuniqueNonNull x then
        (if 0 < otherSum df x y then
          px_pie (topData df x y ++ [(Cell.str "Other", otherSum df x y)])
                (title.getD (y ++ " by " ++ x)) h 0
        else update_layout (px_pie (groupBySum df x y)
                (title.getD (y ++ " by " ++ x)) h 0) "pie" x y sg)
      else update_layout (px_pie (groupBySum df x y)
                (title.getD (y ++ " by " ++ x)) h 0) "pie" x y sg) := by with_unfolding_all rfl

theorem generate_chart_donut_eq (df : DFrame) (x y : String) (title : Option String)
    (uc : Bool) (h : ℕ) (sg : Bool) :
    generate_chart df "donut" x y title uc h sg =
      .ok (if 10 < df.nuniqueNonNull x then
        (if 0 < otherSum df x y then
          px_pie (topData df x y ++ [(Cell.str "Other", otherSum df x y)])
                (title.getD (y ++ " by " ++ x)) h (2/5)
        else update_layout (px_pie (groupBySum df x y)
                (title.getD (y ++ " by " ++ x)) h (2/5)) "donut" x y sg)
      else update_layout (px_pie (groupBySum df x y)
                (title.getD (y ++ " by " ++ x)) h (2/5)) "donut" x y sg) := by with_unfolding_all rfl

theorem generate_chart_bar_eq (df : DFrame) (x y : String) (title : Option String)
    (uc : Bool) (h : ℕ) (sg : Bool) :
    generate_chart df "bar" x y title uc h sg =
      .ok (if 10 < df.nuniqueNonNull x then
        { update_layout (px_bar df x y (title.getD (y ++ " by " ++ x))
            (if uc then some x else none) h) "bar" x y sg with tickangle := some (-45) }
      else update_layout (px_bar df x y (title.getD (y ++ " by " ++ x))
            (if uc then some x else none) h) "bar" x y sg) := by with_unfolding_all rfl

theorem generate_chart_line_eq (df : DFrame) (x y : String) (title : Option String)
    (uc : Bool) (h : ℕ) (sg : Bool) :
    generate_chart df "line" x y title uc h sg =
      .ok (update_layout (px_line df x y (title.getD (y ++ " by " ++ x)) h) "line" x y sg) := by
  with_unfolding_all rfl

theorem generate_chart_scatter_eq (df : DFrame) (x y : String) (title : Option String)
    (uc : Bool) (h : ℕ) (sg : Bool) :
    generate_chart df "scatter" x y title uc h sg =
      .ok (update_layout (px_scatter df x y (title.getD (y ++ " by " ++ x))
            (if uc then some x else none) h) "scatter" x y sg) := by
  with_unfolding_all rfl

theorem generate_chart_area_eq (df : DFrame) (x y : String) (title : Option String)
    (uc : Bool) (h : ℕ) (sg : Bool) :
    generate_chart df "area" x y title uc h sg =
      .ok (update_layout (px_area df x y (title.getD (y ++ " by " ++ x)) h) "area" x y sg) := by
  with_unfolding_all rfl

theorem generate_chart_histogram_eq (df : DFrame) (x y : String) (title : Option String)
    (uc : Bool) (h : ℕ) (sg : Bool) :
    generate_chart df "histogram" x y title uc h sg =
      .ok (update_layout (px_histogram df x (title.getD (y ++ " by " ++ x)) h
            (if uc then some y else none)) "histogram" x y sg) := by
  with_unfolding_all rfl

theorem generate_chart_box_eq (df : DFrame) (x y : String) (title : Option String)
    (uc : Bool) (h : ℕ) (sg : Bool) :
    generate_chart df "box" x y title uc h sg =
      .ok (update_layout (px_box df x y (title.getD (y ++ " by " ++ x)) h
            (if uc then some x else none)) "box" x y sg) := by
  with_unfolding_all rfl

theorem generate_chart_violin_eq (df : DFrame) (x y : String) (title : Option String)
    (uc : Bool) (h : ℕ) (sg : Bool) :
    generate_chart df "violin" x y title uc h sg =
      .ok (update_layout (px_violin df x y (title.getD (y ++ " by " ++ x)) h) "violin" x y sg) := by
  with_unfolding_all rfl

/-- Eleven distinct categories whose two smallest group sums are both zero
(so the folded remainder sums to zero). -/
def df11a : DFrame :=
  { columns := ["cat", "val"],
    rows := [[Cell.str "a", Cell.num 100], [Cell.str "b", Cell.num 90],
             [Cell.str "c", Cell.num 80], [Cell.str "d", Cell.num 70],
             [Cell.str "e", Cell.num 60], [Cell.str "f", Cell.num 50],
             [Cell.str "g", Cell.num 40], [Cell.str "h", Cell.num 30],
             [Cell.str "i", Cell.num 20], [Cell.str "j", Cell.num 0],
             [Cell.str "k", Cell.num 0]] }

/-- Eleven distinct categories with a positive remainder after the top 9. -/
def df11b : DFrame :=
  { columns := ["cat", "val"],
    rows := [[Cell.str "a", Cell.num 100], [Cell.str "b", Cell.num 90],
             [Cell.str "c", Cell.num 80], [Cell.str "d", Cell.num 70],
             [Cell.str "e", Cell.num 60], [Cell.str "f", Cell.num 50],
             [Cell.str "g", Cell.num 40], [Cell.str "h", Cell.num 30],
             [Cell.str "i", Cell.num 20], [Cell.str "j", Cell.num 10],
             [Cell.str "k", Cell.num 5]] }

/-- C9: on a pie request whose x-column has at most 10 distinct values,
`generate_chart` groups the rows by x, sums y per group, and emits exactly
one slice per distinct x value whose value is that group's sum; in
particular on the dataset (A,10), (B,20), (A,5) a pie over x=name,
y=sales yields exactly the 2 slices A=15 and B=20. -/
theorem C9_pie_group_sum_slices (df : DFrame) (x y : String) (title : Option String)
    (uc : Bool) (h : ℕ) (sg : Bool) (hle : df.nuniqueNonNull x ≤ 10) :
    (∃ fig, generate_chart df "pie" x y title uc h sg = .ok fig ∧
      fig.slices = groupBySum df x y ∧
      fig.slices.length = df.nuniqueNonNull x ∧
      (∀ k : Cell, ∀ v : ℚ, (k, v) ∈ fig.slices → v = groupYSum df x y k)) ∧
    (generate_chart dfAB "pie" "name" "sales" none true 400 true).toOption.map Figure.slices =
      some [(Cell.str "A", 15), (Cell.str "B", 20)] := by
  constructor
  · have hn : ¬ 10 < df.nuniqueNonNull x := by omega
    rw [generate_chart_pie_eq, if_neg hn]
    refine ⟨_, rfl, rfl, length_groupBySum df x y, ?_⟩
    intro k v hkv
    simp only [update_layout, px_pie, groupBySum, List.mem_map] at hkv
    obtain ⟨a, _, heq⟩ := hkv
    obtain ⟨rfl, rfl⟩ := Prod.mk.injEq .. ▸ heq
    rfl
  · with_unfolding_all decide

/-- C9 witness: the general part of `C9_pie_group_sum_slices`
instantiated on the concrete (A,10), (B,20), (A,5) dataset. -/
theorem C9_pie_group_sum_slices_witness :
    (∃ fig, generate_chart dfAB "pie" "name" "sales" none true 400 true = .ok fig ∧
      fig.slices = groupBySum dfAB "name" "sales" ∧
      fig.slices.length = dfAB.nuniqueNonNull "name" ∧
      (∀ k : Cell, ∀ v : ℚ, (k, v) ∈ fig.slices → v = groupYSum dfAB "name" "sales" k)) ∧
    (generate_chart dfAB "pie" "name" "sales" none true 400 true).toOption.map Figure.slices =
      some [(Cell.str "A", 15), (Cell.str "B", 20)] :=
  C9_pie_group_sum_slices dfAB "name" "sales" none true 400 true (by with_unfolding_all decide)

/-- C10: `available_chart_types` is exactly the 8-element list that omits
"donut", while `generate_chart` nevertheless accepts and builds a donut
chart. -/
theorem C10_available_types_omit_donut :
    available_chart_types =
      ["bar", "line", "scatter", "pie", "area", "histogram", "box", "violin"] ∧
    "donut" ∉ available_chart_types ∧
    (generate_chart dfAB "donut" "name" "sales" none true 400 true).toOption.isSome = true := by
  refine ⟨rfl, by decide, by with_unfolding_all decide⟩

/-- C1 (amended): on a pie/donut request whose x-column has more than 10
distinct values, `generate_chart` aggregates (sum y) per x and sorts
descending by summed y; when the summed remainder after the top 9 groups
is positive it keeps the top 9 verbatim and folds the remainder into a
single "Other" group (10 groups in total); when the remainder sums to
zero (or is negative) no collapsing happens at all and the chart keeps
one group per distinct x value — for 11 distinct values that is 11
groups, not 9. -/
theorem C1_pie_collapse (df : DFrame) (x y ct : String) (title : Option String)
    (uc : Bool) (h : ℕ) (sg : Bool)
    (hct : ct = "pie" ∨ ct = "donut") (hgt : 10 < df.nuniqueNonNull x) :
    ∃ fig, generate_chart df ct x y title uc h sg = .ok fig ∧
      (0 < otherSum df x y →
        fig.slices = topData df x y ++ [(Cell.str "Other", otherSum df x y)] ∧
        fig.slices.length = 10) ∧
      (otherSum df x y ≤ 0 →
        fig.slices = groupBySum df x y ∧
        fig.slices.length = df.nuniqueNonNull x) := by
  have hlen : (sortedPie df x y).length = df.nuniqueNonNull x := by
    simp [sortedPie, length_sortLe, length_groupBySum]
  have htop : (topData df x y).length = 9 := by
    simp only [topData, List.length_take, hlen]
    omega
  rcases hct with rfl | rfl
  all_goals {
    first
      | rw [generate_chart_pie_eq, if_pos hgt]
      | rw [generate_chart_donut_eq, if_pos hgt]
    by_cases ho : 0 < otherSum df x y
    · rw [if_pos ho]
      refine ⟨_, rfl, fun _ => ⟨rfl, ?_⟩, fun hle => absurd ho (not_lt.mpr hle)⟩
      simp [px_pie, htop]
    · rw [if_neg ho]
      exact ⟨_, rfl, fun hp => absurd hp ho,
        fun _ => ⟨rfl, length_groupBySum df x y⟩⟩
  }

/-- C1 counterexample: `df11a` has 11 distinct x values and its two
smallest group sums are 0, so the folded remainder sums to zero; the
claim predicts 9 groups, but the code skips the collapse entirely and
keeps all 11 groups. -/
theorem C1_pie_collapse_cx :
    otherSum df11a "cat" "val" = 0 ∧
    df11a.nuniqueNonNull "cat" = 11 ∧
    (generate_chart df11a "pie" "cat" "val" none true 400 true).toOption.map
      (fun f => f.slices.length) = some 11 ∧ (11 : ℕ) ≠ 9 := by
  refine ⟨?_, ?_, ?_, by decide⟩ <;> with_unfolding_all decide

/-- C1 witness: `C1_pie_collapse` instantiated on `df11b` (11 distinct
values, positive remainder). -/
theorem C1_pie_collapse_witness :
    ∃ fig, generate_chart df11b "pie" "cat" "val" none true 400 true = .ok fig ∧
      (0 < otherSum df11b "cat" "val" →
        fig.slices = topData df11b "cat" "val" ++
          [(Cell.str "Other", otherSum df11b "cat" "val")] ∧
        fig.slices.length = 10) ∧
      (otherSum df11b "cat" "val" ≤ 0 →
        fig.slices = groupBySum df11b "cat" "val" ∧
        fig.slices.length = df11b.nuniqueNonNull "cat") :=
  C1_pie_collapse df11b "cat" "val" "pie" none true 400 true (Or.inl rfl)
    (by with_unfolding_all decide)

/-- C2 (amended): for every supported chart type the returned spec
carries the layout normalization (centered title, x-axis labeled with the
x-column, y-axis labeled with the y-column except pie/donut, grid theme
from the show-grid flag) — except when the pie/donut category collapse
actually rebuilds the figure (more than 10 distinct x values and a
positive remainder), in which case the rebuilt spec has only the
constructor defaults: no centered title, no axis labels, and the default
"plotly" template regardless of the show-grid flag. -/
theorem C2_layout_normalization (df : DFrame) (ct x y : String) (title : Option String)
    (uc : Bool) (h : ℕ) (sg : Bool)
    (hct : ct ∈ available_chart_types ∨ ct = "donut") :
    ∃ fig, generate_chart df ct x y title uc h sg = .ok fig ∧
      (¬((ct = "pie" ∨ ct = "donut") ∧ 10 < df.nuniqueNonNull x ∧ 0 < otherSum df x y) →
        fig.title_x = some (1/2) ∧
        fig.xaxis_title = some x ∧
        fig.yaxis_title = (if ct = "pie" ∨ ct = "donut" then none else some y) ∧
        fig.template = (if sg then "plotly" else "plotly_white")) ∧
      (((ct = "pie" ∨ ct = "donut") ∧ 10 < df.nuniqueNonNull x ∧ 0 < otherSum df x y) →
        fig.title_x = none ∧ fig.xaxis_title = none ∧ fig.yaxis_title = none ∧
        fig.template = "plotly") := by
  have hm : ct = "bar" ∨ ct = "line" ∨ ct = "scatter" ∨ ct = "pie" ∨ ct = "area" ∨
      ct = "histogram" ∨ ct = "box" ∨ ct = "violin" ∨ ct = "donut" := by
    rcases hct with hm | rfl
    · simp only [available_chart_types, List.mem_cons, List.not_mem_nil, or_false] at hm
      tauto
    · tauto
  rcases hm with rfl | rfl | rfl | rfl | rfl | rfl | rfl | rfl | rfl
  -- bar
  · refine ⟨_, generate_chart_bar_eq df x y title uc h sg, ?_, ?_⟩
    · intro _
      by_cases hb : 10 < df.nuniqueNonNull x
      · rw [if_pos hb]; exact ⟨rfl, rfl, rfl, rfl⟩
      · rw [if_neg hb]; exact ⟨rfl, rfl, rfl, rfl⟩
    · intro htr
      exact absurd htr.1 (by decide)
  -- line
  · exact ⟨_, generate_chart_line_eq df x y title uc h sg,
      fun _ => ⟨rfl, rfl, rfl, rfl⟩, fun htr => absurd htr.1 (by decide)⟩
  -- scatter
  · exact ⟨_, generate_chart_scatter_eq df x y title uc h sg,
      fun _ => ⟨rfl, rfl, rfl, rfl⟩, fun htr => absurd htr.1 (by decide)⟩
  -- pie
  · refine ⟨_, generate_chart_pie_eq df x y title uc h sg, ?_, ?_⟩
    · intro hnc
      by_cases hb : 10 < df.nuniqueNonNull x
      · have ho : ¬ 0 < otherSum df x y := fun ho => hnc ⟨Or.inl rfl, hb, ho⟩
        rw [if_pos hb, if_neg ho]
        exact ⟨rfl, rfl, rfl, rfl⟩
      · rw [if_neg hb]
        exact ⟨rfl, rfl, rfl, rfl⟩
    · rintro ⟨-, hb, ho⟩
      rw [if_pos hb, if_pos ho]
      exact ⟨rfl, rfl, rfl, rfl⟩
  -- area
  · exact ⟨_, generate_chart_area_eq df x y title uc h sg,
      fun _ => ⟨rfl, rfl, rfl, rfl⟩, fun htr => absurd htr.1 (by decide)⟩
  -- histogram
  · exact ⟨_, generate_chart_histogram_eq df x y title uc h sg,
      fun _ => ⟨rfl, rfl, rfl, rfl⟩, fun htr => absurd htr.1 (by decide)⟩
  -- box
  · exact ⟨_, generate_chart_box_eq df x y title uc h sg,
      fun _ => ⟨rfl, rfl, rfl, rfl⟩, fun htr => absurd htr.1 (by decide)⟩
  -- violin
  · exact ⟨_, generate_chart_violin_eq df x y title uc h sg,
      fun _ => ⟨rfl, rfl, rfl, rfl⟩, fun htr => absurd htr.1 (by decide)⟩
  -- donut
  · refine ⟨_, generate_chart_donut_eq df x y title uc h sg, ?_, ?_⟩
    · intro hnc
      by_cases hb : 10 < df.nuniqueNonNull x
      · have ho : ¬ 0 < otherSum df x y := fun ho => hnc ⟨Or.inr rfl, hb, ho⟩
        rw [if_pos hb, if_neg ho]
        exact ⟨rfl, rfl, rfl, rfl⟩
      · rw [if_neg hb]
        exact ⟨rfl, rfl, rfl, rfl⟩
    · rintro ⟨-, hb, ho⟩
      rw [if_pos hb, if_pos ho]
      exact ⟨rfl, rfl, rfl, rfl⟩

/-- C2 counterexample: on `df11b` (11 distinct values, positive
remainder) with show-grid off, the rebuilt pie figure has no centered
title, no axis labels and the default "plotly" template, contradicting
the claim that the normalization also covers the collapsed pie/donut
case. -/
theorem C2_layout_normalization_cx :
    (generate_chart df11b "pie" "cat" "val" none true 400 false).toOption.map
      (fun f => (f.title_x, f.xaxis_title, f.template)) =
      some (none, none, "plotly") ∧
    ((none : Option ℚ), (none : Option String), "plotly") ≠
      (some (1/2 : ℚ), some "cat", "plotly_white") := by
  constructor
  · with_unfolding_all decide
  · with_unfolding_all decide

/-- C2 witness: `C2_layout_normalization` instantiated on a bar chart
over the (A,10), (B,20), (A,5) dataset with show-grid off. -/
theorem C2_layout_normalization_witness :
    ∃ fig, generate_chart dfAB "bar" "name" "sales" none true 400 false = .ok fig ∧
      (¬(("bar" = "pie" ∨ "bar" = "donut") ∧ 10 < dfAB.nuniqueNonNull "name" ∧
          0 < otherSum dfAB "name" "sales") →
        fig.title_x = some (1/2) ∧
        fig.xaxis_title = some "name" ∧
        fig.yaxis_title = (if "bar" = "pie" ∨ "bar" = "donut" then none else some "sales") ∧
        fig.template = (if false then "plotly" else "plotly_white")) ∧
      ((("bar" = "pie" ∨ "bar" = "donut") ∧ 10 < dfAB.nuniqueNonNull "name" ∧
          0 < otherSum dfAB "name" "sales") →
        fig.title_x = none ∧ fig.xaxis_title = none ∧ fig.yaxis_title = none ∧
        fig.template = "plotly") :=
  C2_layout_normalization dfAB "bar" "name" "sales" none true 400 false (Or.inl (by decide))

/-! ### The analyzer (`src/utils/data_analyzer.py`) -/

/-- Ascending sort of rationals. -/
def sortQ (l : List ℚ) : List ℚ := sortLe (fun a b => decide (a ≤ b)) l

/-- Model of `Series.quantile(num/den)` with pandas' default linear interpolation
over the sorted non-null values; `none` (NaN) on an empty series. -/
def quantileQ (xs : List ℚ) (num den : ℕ) : Option ℚ :=
  match sortQ xs with
  | [] => none
  | _ :: _ =>
    let s := sortQ xs
    let n := s.length
    let pos := (n - 1) * num
    let k := pos / den
    let r := pos % den
    some (s.getD k 0 + ((r : ℚ) / (den : ℚ)) * (s.getD (k + 1) (s.getD k 0) - s.getD k 0))

/-- Arithmetic mean (0 on an empty list; only used with nonempty input). -/
def meanOf (l : List ℚ) : ℚ := l.sum / (l.length : ℚ)

/-- Sum of squared deviations from the mean. -/
def devSq (xs : List ℚ) : ℚ := (xs.map (fun v => (v - meanOf xs) ^ 2)).sum

/-- Per-column `describe()` output: count, mean, std, min, quartiles,
max.  `std` is kept in the `c·√r` representation; `none` models NaN. -/
structure NumSummary where
  count : ℕ
  mean : Option ℚ
  std : Option (ℚ × ℚ)
  min : Option ℚ
  q25 : Option ℚ
  q50 : Option ℚ
  q75 : Option ℚ
  max : Option ℚ
  deriving DecidableEq

/-- Model of `df[col].describe()` on the non-null values of a numeric column. -/
def describeCol (xs : List ℚ) : NumSummary :=
  { count := xs.length
    mean := if xs.length = 0 then none else some (meanOf xs)
    std := if xs.length < 2 then none
           else some (1 / ((xs.length : ℚ) - 1), devSq xs * ((xs.length : ℚ) - 1))
    min := (sortQ xs).head?
    q25 := quantileQ xs 1 4
    q50 := quantileQ xs 2 4
    q75 := quantileQ xs 3 4
    max := (sortQ xs).getLast? }

/-- Is every cell of the column numeric or null?  Such a column carries a
numeric dtype in pandas and is selected by `select_dtypes(['number'])`. -/
def colIsNumeric (cells : List Cell) : Bool :=
  cells.all (fun c => c.isNull || c.toNum.isSome)

/-- Model of `df.select_dtypes(include=['number']).columns.tolist()`. -/
def numericCols (df : DFrame) : List String :=
  df.columns.filter (fun c => colIsNumeric (df.getCol c))

/-- Model of `str(dtype)` for a column (numeric dtypes collapsed to "float64",
everything else is "object"). -/
def dtypeStr (cells : List Cell) : String :=
  if colIsNumeric cells then "float64" else "object"

/-- The IQR-rule outlier count of a numeric column: number of rows whose
value lies strictly outside `[Q1 - 1.5*IQR, Q3 + 1.5*IQR]` (null cells
never compare true, as in pandas). -/
def outlierCount (df : DFrame) (c : String) : ℕ :=
  let xs := df.numsOf c
  match quantileQ xs 1 4, quantileQ xs 3 4 with
  | some q1, some q3 =>
    let iqr := q3 - q1
    let lower := q1 - 3/2 * iqr
    let upper := q3 + 3/2 * iqr
    (df.getCol c).countP (fun cell =>
      match cell.toNum with
      | some v => decide (v < lower) || decide (upper < v)
      | none => false)
  | _, _ => 0

/-- The entries of the `potential_outliers` mapping: numeric columns with
a positive outlier count. -/
def outlierEntries (df : DFrame) : List (String × ℕ) :=
  (numericCols df).filterMap (fun c =>
    if 0 < outlierCount df c then some (c, outlierCount df c) else none)

/-- The rows where both columns hold numbers (pandas Pearson correlation
uses pairwise-complete observations). -/
def pairUp (xs ys : List Cell) : List (ℚ × ℚ) :=
  (xs.zip ys).filterMap (fun p =>
    match p.1.toNum, p.2.toNum with
    | some a, some b => some (a, b)
    | _, _ => none)

/-- Sum of products of deviations from the two means. -/
def sxy (ps : List (ℚ × ℚ)) : ℚ :=
  (ps.map (fun p =>
    (p.1 - meanOf (ps.map Prod.fst)) * (p.2 - meanOf (ps.map Prod.snd)))).sum

/-- The Pearson coefficient of two columns in `c·√r` representation:
`Sxy/√(Sxx·Syy) = (Sxy/(Sxx·Syy))·√(Sxx·Syy)`; `none` models the NaN
produced by a zero variance. -/
def corrSym (xs ys : List Cell) : Option (ℚ × ℚ) :=
  let ps := pairUp xs ys
  let sxx' := sxy (ps.map (fun p => (p.1, p.1)))
  let syy' := sxy (ps.map (fun p => (p.2, p.2)))
  let sxy' := sxy ps
  if sxx' * syy' = 0 then none
  else some (sxy' / (sxx' * syy'), sxx' * syy')

/-- Fuel-driven binary integer square root, structurally recursive so
that concrete evaluation reduces (the fuel only bounds the recursion
depth; `n` itself is always enough fuel). -/
def isqrtF : ℕ → ℕ → ℕ
  | 0, _ => 0
  | fuel + 1, n =>
    if n = 0 then 0
    else
      let s := isqrtF fuel (n / 4)
      if (2 * s + 1) ^ 2 ≤ n then 2 * s + 1 else 2 * s

/-- Floor of the square root of a natural number. -/
def intSqrt (n : ℕ) : ℕ := isqrtF n n

/-- Floor of the square root of a nonnegative rational. -/
def ratSqrtFloor (x : ℚ) : ℕ := intSqrt (x.num.toNat * x.den) / x.den

/-- Round the value `c·√r` (with `0 ≤ r`) half-to-even to 2 decimal
places (numpy/Python `round`), computed exactly by comparing the square
of `100·|c|·√r` against the squares of candidate integers. -/
def round2Sym (c r : ℚ) : ℚ :=
  let y2 : ℚ := 10000 * c ^ 2 * r
  let f : ℕ := ratSqrtFloor y2
  let n : ℕ :=
    if y2 < ((f : ℚ) + 1/2) ^ 2 then f
    else if ((f : ℚ) + 1/2) ^ 2 < y2 then f + 1
    else if f % 2 = 0 then f else f + 1
  (if c < 0 then -(n : ℚ) else (n : ℚ)) / 100

/-- One entry of `df[numeric_cols].corr().round(2)`. -/
def corrRounded (xs ys : List Cell) : Option ℚ :=
  (corrSym xs ys).map (fun p => round2Sym p.1 p.2)

/-- Model of `df[numeric_cols].corr().round(2)` as a nested association list. -/
def corrMatrix (df : DFrame) (ncols : List String) :
    List (String × List (String × Option ℚ)) :=
  ncols.map (fun c1 => (c1, ncols.map (fun c2 =>
    (c2, corrRounded (df.getCol c1) (df.getCol c2)))))

/-- Round-half-even of a rational to the nearest integer. -/
def roundHalfEven (y : ℚ) : ℤ :=
  let f := ⌊y⌋
  if y - (f : ℚ) < 1/2 then f
  else if (1 : ℚ)/2 < y - (f : ℚ) then f + 1
  else if f % 2 = 0 then f else f + 1

/-- Model of `round(x, 2)` at half-even, for exactly rational values. -/
def roundHE2 (x : ℚ) : ℚ := ((roundHalfEven (100 * x) : ℤ) : ℚ) / 100

/-- Model of `Series.skew()` (adjusted Fisher-Pearson, as pandas computes it) in
`c·√r` representation: NaN (`none`) below 3 observations, `0` at zero
variance, else `n·√(n-1)/(n-2) · S3/S2^1.5` with `S2`, `S3` the sums of
squared/cubed deviations. -/
def skewPD (xs : List ℚ) : Option (ℚ × ℚ) :=
  let n := xs.length
  if n < 3 then none
  else
    let m := meanOf xs
    let s2 := (xs.map (fun v => (v - m) ^ 2)).sum
    let s3 := (xs.map (fun v => (v - m) ^ 3)).sum
    if s2 = 0 then some (0, 0)
    else some ((n : ℚ) * s3 / (((n : ℚ) - 2) * s2 ^ 2), ((n : ℚ) - 1) * s2)

/-- Model of `Series.kurtosis()` (excess kurtosis with pandas' bias adjustment):
NaN below 4 observations, `0` at zero variance, else
`n(n+1)(n-1)·S4/((n-2)(n-3)·S2²) - 3(n-1)²/((n-2)(n-3))`. -/
def kurtPD (xs : List ℚ) : Option ℚ :=
  let n := xs.length
  if n < 4 then none
  else
    let m := meanOf xs
    let s2 := (xs.map (fun v => (v - m) ^ 2)).sum
    let s4 := (xs.map (fun v => (v - m) ^ 4)).sum
    if s2 = 0 then some 0
    else some ((n : ℚ) * ((n : ℚ) + 1) * ((n : ℚ) - 1) * s4 /
        (((n : ℚ) - 2) * ((n : ℚ) - 3) * s2 ^ 2) -
      3 * ((n : ℚ) - 1) ^ 2 / (((n : ℚ) - 2) * ((n : ℚ) - 3)))

/-- One entry of the `distribution` mapping: skewness and kurtosis
rounded to 2 decimals and the `is_normal` heuristic flag computed from
the unrounded values (NaN comparisons are false). -/
structure DistEntry where
  skewness : Option ℚ
  kurtosis : Option ℚ
  is_normal : Bool
  deriving DecidableEq

/-- The `distribution` entry of one numeric column. -/
def distEntry (xs : List ℚ) : DistEntry :=
  { skewness := (skewPD xs).map (fun p => round2Sym p.1 p.2)
    kurtosis := (kurtPD xs).map roundHE2
    is_normal :=
      match skewPD xs, kurtPD xs with
      | some s, some k => decide (s.1 ^ 2 * s.2 < 1/4) && decide (|k| < 1/2)
      | _, _ => false }

/-- Per-column categorical summary: distinct non-null count and the 10
most frequent values with their counts. -/
structure CatSummary where
  unique_values : ℕ
  top_values : List (Cell × ℕ)
  deriving DecidableEq

/-- Model of `value_counts()`: counts of non-null values sorted descending. -/
def valueCounts (cells : List Cell) : List (Cell × ℕ) :=
  let nn := cells.filter (fun v => !v.isNull)
  sortLe (fun a b => decide (b.2 ≤ a.2)) (nn.dedup.map (fun v => (v, nn.count v)))

/-- The categorical summary of one non-numeric column. -/
def catSummary (cells : List Cell) : CatSummary :=
  { unique_values := (cells.filter (fun v => !v.isNull)).dedup.length
    top_values := (valueCounts cells).take 10 }

/-- Null count of a column (`df[col].isnull().sum()`). -/
def nullCount (cells : List Cell) : ℕ := cells.countP (fun c => c.isNull)

/-- The analysis summary returned by `analyze_data`; fields that the
source conditionally omits from its result dictionary are `Option`s. -/
structure AnalysisResults where
  row_count : ℕ
  column_count : ℕ
  column_types : List (String × String)
  numeric_summary : Option (List (String × NumSummary))
  correlation : Option (List (String × List (String × Option ℚ)))
  potential_outliers : Option (List (String × ℕ))
  categorical_summary : Option (List (String × CatSummary))
  missing_values : Option (List (String × ℕ))
  distribution : Option (List (String × DistEntry))

/-- Model of `analyze_data` from `src/utils/data_analyzer.py`. -/
def analyze_data (df : DFrame) : AnalysisResults :=
  let ncols := numericCols df
  let cat_cols := df.columns.filter (fun c => !(ncols.contains c))
  let missing := df.columns.filterMap (fun c =>
    if 0 < nullCount (df.getCol c) then some (c, nullCount (df.getCol c)) else none)
  { row_count := df.nrows
    column_count := df.columns.length
    column_types := df.columns.map (fun c => (c, dtypeStr (df.getCol c)))
    numeric_summary :=
      if ncols.isEmpty then none
      else some (ncols.map (fun c => (c, describeCol (df.numsOf c))))
    correlation :=
      if ncols.isEmpty then none
      else if 1 < ncols.length then some (corrMatrix df ncols) else none
    potential_outliers :=
      if (outlierEntries df).isEmpty then none else some (outlierEntries df)
    categorical_summary :=
      if cat_cols.isEmpty then none
      else some (cat_cols.map (fun c => (c, catSummary (df.getCol c))))
    missing_values :=
      if missing.isEmpty then none else some missing
    distribution :=
      if ncols.isEmpty then none
      else some (ncols.map (fun c => (c, distEntry (df.numsOf c)))) }

/-- Association-list lookup through the optional summary fields. -/
def olookup {α : Type} (o : Option (List (String × α))) (c : String) : Option α :=
  o.bind (fun l => l.lookup c)

/-- Lookup of one correlation-matrix entry. -/
def mlookup (m : Option (List (String × List (String × Option ℚ))))
    (c1 c2 : String) : Option (Option ℚ) :=
  m.bind (fun l => (l.lookup c1).bind (fun row => row.lookup c2))

/-! ### The loader (`src/utils/file_handler.py`) -/

/-- The loader's error taxonomy. -/
inductive LoadError where
  | unsupportedFormat (msg : String)
  | parseError (msg : String)
  deriving DecidableEq

/-- Is this a parse error (as opposed to an unsupported format)? -/
def LoadError.isParseErr : LoadError → Bool
  | LoadError.parseError _ => true
  | _ => false

/-- Is `b` a UTF-8 continuation byte? -/
def isCont (b : ℕ) : Bool := 128 ≤ b && b < 192

/-- Strict UTF-8 decoding of a byte list, as Python's
`bytes.decode('utf-8')`: overlong encodings, surrogates and out-of-range
lead bytes are rejected. -/
def utf8Decode : List ℕ → Option (List Char)
  | [] => some []
  | b :: bs =>
    if b < 128 then
      (utf8Decode bs).map (fun cs => Char.ofNat b :: cs)
    else if 194 ≤ b && b ≤ 223 then
      match bs with
      | b1 :: rest =>
        if isCont b1 then
          (utf8Decode rest).map (fun cs =>
            Char.ofNat ((b - 192) * 64 + (b1 - 128)) :: cs)
        else none
      | [] => none
    else if 224 ≤ b && b ≤ 239 then
      match bs with
      | b1 :: b2 :: rest =>
        if (if b = 224 then decide (160 ≤ b1) && decide (b1 < 192)
            else if b = 237 then decide (128 ≤ b1) && decide (b1 < 160)
            else isCont b1) && isCont b2 then
          (utf8Decode rest).map (fun cs =>
            Char.ofNat ((b - 224) * 4096 + (b1 - 128) * 64 + (b2 - 128)) :: cs)
        else none
      | _ => none
    else if 240 ≤ b && b ≤ 244 then
      match bs with
      | b1 :: b2 :: b3 :: rest =>
        if (if b = 240 then decide (144 ≤ b1) && decide (b1 < 192)
            else if b = 244 then decide (128 ≤ b1) && decide (b1 < 144)
            else isCont b1) && isCont b2 && isCont b3 then
          (utf8Decode rest).map (fun cs =>
            Char.ofNat ((b - 240) * 262144 + (b1 - 128) * 4096 +
              (b2 - 128) * 64 + (b3 - 128)) :: cs)
        else none
      | _ => none
    else none

/-- Latin-1 decoding: every byte maps to the code point of its value. -/
def latin1Decode (bs : List ℕ) : List Char := bs.map Char.ofNat

/-- Numeric value of the digits of a decimal literal. -/
def digitsToNat (ds : List Char) : ℕ :=
  ds.foldl (fun acc c => acc * 10 + (c.toNat - 48)) 0

/-- All characters are decimal digits (possibly none). -/
def digitsOnly (ds : List Char) : Bool :=
  ds.all (fun c => decide ('0' ≤ c) && decide (c ≤ '9'))

/-- Parse a plain decimal number (optional sign, digits, optional
fractional part), as pandas' numeric column inference accepts;
scientific notation is not modelled, no claim depends on it. -/
def parseNumQ (s : String) : Option ℚ :=
  let withSign : ℚ × List Char :=
    match s.data with
    | '-' :: t => (-1, t)
    | '+' :: t => (1, t)
    | t => (1, t)
  let body := withSign.2
  match (String.mk body).splitOn "." with
  | [a] =>
    if a.data ≠ [] ∧ digitsOnly a.data then
      some (withSign.1 * (digitsToNat a.data : ℚ))
    else none
  | [a, b] =>
    if digitsOnly a.data ∧ digitsOnly b.data ∧ ¬(a.data = [] ∧ b.data = []) then
      some (withSign.1 * ((digitsToNat a.data : ℚ) +
        (digitsToNat b.data : ℚ) / (10 : ℚ) ^ b.data.length))
    else none
  | _ => none

/-- Split a CSV record on commas (the quoting rules of `read_csv` are not
modelled; no claim depends on them). -/
def splitFields (line : String) : List String := line.splitOn ","

/-- Drop a trailing carriage return. -/
def stripCR (line : String) : String :=
  if line.endsWith "\r" then line.dropRight 1 else line

/-- Typed cell from a raw CSV field: empty fields are NaN; fields of a
numeric column parse as numbers; everything else stays text. -/
def cellOfField (numeric : Bool) (f : String) : Cell :=
  if f = "" then Cell.null
  else if numeric then
    match parseNumQ f with
    | some q => Cell.num q
    | none => Cell.str f
  else Cell.str f

/-- Model of `pd.read_csv` on decoded text: the header row gives the column
names, blank lines are skipped, a data row wider than the header is a
parse error, narrower rows are padded with nulls, and a column is
numeric when every field is empty or parses as a number. -/
def parseCSV (text : String) : Except String DFrame :=
  match ((text.splitOn "\n").map stripCR).filter (fun l => l ≠ "") with
  | [] => .error "No columns to parse from file"
  | header :: dataLines =>
    let cols := splitFields header
    let rawRows := dataLines.map splitFields
    if rawRows.any (fun r => cols.length < r.length) then
      .error "Error tokenizing data"
    else
      let colNumeric := (List.range cols.length).map (fun i =>
        rawRows.all (fun r =>
          (r.getD i "") = "" || (parseNumQ (r.getD i "")).isSome))
      .ok { columns := cols,
            rows := rawRows.map (fun r => (List.range cols.length).map (fun i =>
              cellOfField (colNumeric.getD i true) (r.getD i ""))) }

/-- Drop leading JSON whitespace. -/
def skipWs : List Char → List Char
  | c :: cs =>
    if c = ' ' ∨ c = '\t' ∨ c = '\n' ∨ c = '\r' then skipWs cs else c :: cs
  | [] => []

/-- Value of a hexadecimal digit. -/
def hexVal (c : Char) : Option ℕ :=
  if '0' ≤ c ∧ c ≤ '9' then some (c.toNat - 48)
  else if 'a' ≤ c ∧ c ≤ 'f' then some (c.toNat - 87)
  else if 'A' ≤ c ∧ c ≤ 'F' then some (c.toNat - 55)
  else none

/-- Simple JSON string escapes. -/
def escChar (e : Char) : Option Char :=
  if e = '"' then some '"'
  else if e = '\\' then some '\\'
  else if e = '/' then some '/'
  else if e = 'n' then some '\n'
  else if e = 't' then some '\t'
  else if e = 'r' then some '\r'
  else if e = 'b' then some (Char.ofNat 8)
  else if e = 'f' then some (Char.ofNat 12)
  else none

/-- Parse the remainder of a JSON string literal (after the opening
quote); returns the content and the rest of the input. -/
def parseStrChars : List Char → Option (List Char × List Char)
  | [] => none
  | c :: rest =>
    if c = '"' then some ([], rest)
    else if c = '\\' then
      match rest with
      | [] => none
      | e :: rest2 =>
        if e = 'u' then
          match rest2 with
          | h1 :: h2 :: h3 :: h4 :: rest3 =>
            match hexVal h1, hexVal h2, hexVal h3, hexVal h4 with
            | some a, some b, some c2, some d =>
              (parseStrChars rest3).map (fun p =>
                (Char.ofNat (a * 4096 + b * 256 + c2 * 16 + d) :: p.1, p.2))
            | _, _, _, _ => none
          | _ => none
        else
          match escChar e with
          | some ch => (parseStrChars rest2).map (fun p => (ch :: p.1, p.2))
          | none => none
    else (parseStrChars rest).map (fun p => (c :: p.1, p.2))

/-- Longest digit span. -/
def spanDigits : List Char → (List Char × List Char)
  | [] => ([], [])
  | c :: cs =>
    if decide ('0' ≤ c) && decide (c ≤ '9') then
      ((c :: (spanDigits cs).1), (spanDigits cs).2)
    else ([], c :: cs)

/-- Parse the exponent part of a JSON number. -/
def parseExp (v : ℚ) (cs : List Char) : Option (ℚ × List Char) :=
  let withSign : ℤ × List Char :=
    match cs with
    | '-' :: t => (-1, t)
    | '+' :: t => (1, t)
    | t => (1, t)
  match spanDigits withSign.2 with
  | ([], _) => none
  | (ds, cs2) => some (v * (10 : ℚ) ^ (withSign.1 * (digitsToNat ds : ℤ)), cs2)

/-- Parse a JSON number. -/
def parseJNum (cs : List Char) : Option (ℚ × List Char) :=
  let withSign : ℚ × List Char :=
    match cs with
    | '-' :: t => (-1, t)
    | t => (1, t)
  match spanDigits withSign.2 with
  | ([], _) => none
  | (ds, cs2) =>
    let cont : Option (ℚ × List Char) :=
      match cs2 with
      | '.' :: t =>
        match spanDigits t with
        | ([], _) => none
        | (fs, cs3) => some ((digitsToNat ds : ℚ) +
            (digitsToNat fs : ℚ) / (10 : ℚ) ^ fs.length, cs3)
      | _ => some ((digitsToNat ds : ℚ), cs2)
    match cont with
    | none => none
    | some (v, cs3) =>
      match cs3 with
      | 'e' :: t => parseExp (withSign.1 * v) t
      | 'E' :: t => parseExp (withSign.1 * v) t
      | _ => some (withSign.1 * v, cs3)

mutual

/-- Fuel-driven JSON value parser (`json.load`). -/
def pjVal : ℕ → List Char → Option (JsonV × List Char)
  | 0, _ => none
  | fuel + 1, cs =>
    match skipWs cs with
    | [] => none
    | c :: rest =>
      if c = 'n' then
        match rest with
        | 'u' :: 'l' :: 'l' :: r => some (JsonV.null, r)
        | _ => none
      else if c = 't' then
        match rest with
        | 'r' :: 'u' :: 'e' :: r => some (JsonV.boolv true, r)
        | _ => none
      else if c = 'f' then
        match rest with
        | 'a' :: 'l' :: 's' :: 'e' :: r => some (JsonV.boolv false, r)
        | _ => none
      else if c = '"' then
        (parseStrChars rest).map (fun p => (JsonV.str (String.mk p.1), p.2))
      else if c = '[' then
        match skipWs rest with
        | ']' :: r => some (JsonV.arr [], r)
        | r2 => (pjItems fuel r2).map (fun p => (JsonV.arr p.1, p.2))
      else if c = '\x7b' then
        match skipWs rest with
        | '\x7d' :: r => some (JsonV.obj [], r)
        | r2 => (pjFields fuel r2).map (fun p => (JsonV.obj p.1, p.2))
      else
        (parseJNum (c :: rest)).map (fun p => (JsonV.num p.1, p.2))

/-- Fuel-driven parser for the items of a JSON array. -/
def pjItems : ℕ → List Char → Option (List JsonV × List Char)
  | 0, _ => none
  | fuel + 1, cs =>
    match pjVal fuel cs with
    | none => none
    | some (v, rest) =>
      match skipWs rest with
      | ',' :: r2 => (pjItems fuel r2).map (fun p => (v :: p.1, p.2))
      | ']' :: r2 => some ([v], r2)
      | _ => none

/-- Fuel-driven parser for the fields of a JSON object. -/
def pjFields : ℕ → List Char → Option (List (String × JsonV) × List Char)
  | 0, _ => none
  | fuel + 1, cs =>
    match skipWs cs with
    | '"' :: rest =>
      match parseStrChars rest with
      | none => none
      | some (key, r1) =>
        match skipWs r1 with
        | ':' :: r2 =>
          match pjVal fuel r2 with
          | none => none
          | some (v, r3) =>
            match skipWs r3 with
            | ',' :: r4 => (pjFields fuel r4).map (fun p =>
                ((String.mk key, v) :: p.1, p.2))
            | '\x7d' :: r4 => some ([(String.mk key, v)], r4)
            | _ => none
        | _ => none
    | _ => none

end

/-- Model of `json.load` on raw bytes: UTF-8 decode, parse one value, require
only whitespace afterwards. -/
def jsonParse (bs : List ℕ) : Option JsonV :=
  match utf8Decode bs with
  | none => none
  | some cs =>
    match pjVal (cs.length + 1) cs with
    | some (v, rest) => if skipWs rest = [] then some v else none
    | none => none

mutual

/-- Dot-flatten the fields of a JSON record (`pd.json_normalize`). -/
def flattenKVs : List (String × JsonV) → List (String × JsonV)
  | [] => []
  | (k, v) :: rest => flattenOne k v ++ flattenKVs rest

/-- Dot-flatten a single field: nested objects contribute their flattened
fields under dotted keys; every other value stays put. -/
def flattenOne (k : String) : JsonV → List (String × JsonV)
  | JsonV.obj kvs => (flattenKVs kvs).map (fun p => (k ++ "." ++ p.1, p.2))
  | v => [(k, v)]

end

/-- Cell stored for a JSON leaf value; non-scalar values (arrays, and the
unflattened dicts of the single-record case) become opaque object
cells. -/
def cellOfJson : JsonV → Cell
  | JsonV.null => Cell.null
  | JsonV.boolv b => Cell.boolv b
  | JsonV.num q => Cell.num q
  | JsonV.str s => Cell.str s
  | v => Cell.jval v.render

/-- Is this JSON value an object (a record)? -/
def JsonV.isObj : JsonV → Bool
  | JsonV.obj _ => true
  | _ => false

/-- The fields of a JSON object (an empty list otherwise). -/
def JsonV.fieldsOf : JsonV → List (String × JsonV)
  | JsonV.obj kvs => kvs
  | _ => []

/-- Append the keys not seen yet, preserving first-encounter order. -/
def addNew (acc : List String) (ks : List String) : List String :=
  ks.foldl (fun a k => if k ∈ a then a else a ++ [k]) acc

/-- Model of `pd.json_normalize` over a list of records: one row per record,
columns in first-encounter key order, missing keys null. -/
def jsonNormalize (xs : List JsonV) : DFrame :=
  let recs := xs.map (fun j => flattenKVs j.fieldsOf)
  let cols := recs.foldl (fun acc r => addNew acc (r.map Prod.fst)) []
  { columns := cols,
    rows := recs.map (fun r => cols.map (fun c =>
      match r.lookup c with
      | some v => cellOfJson v
      | none => Cell.null)) }

/-- Model of `pd.DataFrame([json_data])`: a single-row table from one record, with
no dot-flattening. -/
def singleRowFrame (kvs : List (String × JsonV)) : DFrame :=
  { columns := addNew [] (kvs.map Prod.fst),
    rows := [(addNew [] (kvs.map Prod.fst)).map (fun c =>
      match kvs.lookup c with
      | some v => cellOfJson v
      | none => Cell.null)] }

/-- The JSON-shape dispatch of `load_file` after `json.load` succeeds:
a root array of records is normalized; a root object with an array under
`data` is normalized the same way; any other root object is a single-row
table; everything else is a parse error (as is an array containing a
non-record, which makes `pd.json_normalize` raise). -/
def loadJsonValue : JsonV → Except LoadError DFrame
  | JsonV.arr xs =>
    if xs.all JsonV.isObj then .ok (jsonNormalize xs)
    else .error (.parseError "Error loading JSON file: records required")
  | JsonV.obj kvs =>
    match kvs.lookup "data" with
    | some (JsonV.arr xs) =>
      if xs.all JsonV.isObj then .ok (jsonNormalize xs)
      else .error (.parseError "Error loading JSON file: records required")
    | _ => .ok (singleRowFrame kvs)
  | _ => .error (.parseError
      "Error loading JSON file: Unsupported JSON structure. Please provide a JSON array of objects.")

/-- Split a character list on a separator character (Python
`str.split(sep)`). -/
def splitChar (sep : Char) : List Char → List (List Char)
  | [] => [[]]
  | c :: cs =>
    if c = sep then [] :: splitChar sep cs
    else
      match splitChar sep cs with
      | [] => [[c]]
      | p :: ps => (c :: p) :: ps

/-- The declared extension: text after the last dot, lower-cased
(`uploaded_file.name.split('.')[-1].lower()`). -/
def extOf (name : String) : String :=
  String.mk (((splitChar '.' name.data).getLastD []).map Char.toLower)

/-- The CSV branch after a successful UTF-8 decode; parse failures are
reported as `Error loading CSV file`. -/
def csvLoadU (s : List Char) : Except LoadError DFrame :=
  match parseCSV (String.mk s) with
  | .ok df => .ok df
  | .error m => .error (.parseError ("Error loading CSV file: " ++ m))

/-- The CSV branch after the Latin-1 retry; failures are reported as
`Failed to parse CSV file`. -/
def csvLoadL (s : List Char) : Except LoadError DFrame :=
  match parseCSV (String.mk s) with
  | .ok df => .ok df
  | .error m => .error (.parseError ("Failed to parse CSV file: " ++ m))

/-- Model of `load_file` from `src/utils/file_handler.py`: dispatch on the
declared extension; CSV tries UTF-8 first and falls back to Latin-1 only
on a decode failure; JSON parses and dispatches on the root shape; any
other extension is an unsupported format. -/
def load_file (name : String) (bytes : List ℕ) : Except LoadError DFrame :=
  if extOf name = "csv" then
    match utf8Decode bytes with
    | some s => csvLoadU s
    | none => csvLoadL (latin1Decode bytes)
  else if extOf name = "json" then
    match jsonParse bytes with
    | some j => loadJsonValue j
    | none => .error (.parseError "Error loading JSON file: invalid JSON")
  else
    .error (.unsupportedFormat ("Unsupported file type: " ++ extOf name ++
      ". Please upload a CSV or JSON file."))

theorem csvLoadU_err (s : List Char) (e : LoadError) (h : csvLoadU s = .error e) :
    e.isParseErr = true := by
  unfold csvLoadU at h
  split at h
  · cases h
  · cases h
    rfl

theorem csvLoadL_err (s : List Char) (e : LoadError) (h : csvLoadL s = .error e) :
    e.isParseErr = true := by
  unfold csvLoadL at h
  split at h
  · cases h
  · cases h
    rfl

theorem loadJsonValue_err (j : JsonV) (e : LoadError)
    (h : loadJsonValue j = .error e) : e.isParseErr = true := by
  cases j with
  | null => cases h; rfl
  | boolv b => cases h; rfl
  | num q => cases h; rfl
  | str s => cases h; rfl
  | arr xs =>
    simp only [loadJsonValue] at h
    split at h
    · cases h
    · cases h
      rfl
  | obj kvs =>
    simp only [loadJsonValue] at h
    split at h
    · split at h
      · cases h
      · cases h
        rfl
    · cases h

/-- C3: `load_file` fails with `UnsupportedFormat` exactly for declared
extensions other than csv/json (case-insensitively); for csv/json every
failure is a `ParseError`; and the csv branch decodes UTF-8 first,
retrying with Latin-1 only when the UTF-8 decode itself fails. -/
theorem C3_load_error_taxonomy (name : String) (bytes : List ℕ) :
    (extOf name ∉ (["csv", "json"] : List String) →
      ∃ m, load_file name bytes = .error (.unsupportedFormat m)) ∧
    (extOf name ∈ (["csv", "json"] : List String) →
      ∀ e, load_file name bytes = .error e → e.isParseErr = true) ∧
    (extOf name = "csv" →
      (∀ s, utf8Decode bytes = some s → load_file name bytes = csvLoadU s) ∧
      (utf8Decode bytes = none →
        load_file name bytes = csvLoadL (latin1Decode bytes))) := by
  refine ⟨?_, ?_, ?_⟩
  · intro hne
    have hc : ¬ extOf name = "csv" := fun h => hne (by simp [h])
    have hj : ¬ extOf name = "json" := fun h => hne (by simp [h])
    simp only [load_file, if_neg hc, if_neg hj]
    exact ⟨_, rfl⟩
  · intro hmem e he
    simp only [List.mem_cons, List.not_mem_nil, or_false] at hmem
    rcases hmem with hc | hj
    · simp only [load_file, if_pos hc] at he
      cases hu : utf8Decode bytes with
      | some s =>
        rw [hu] at he
        exact csvLoadU_err s e he
      | none =>
        rw [hu] at he
        exact csvLoadL_err _ e he
    · by_cases hc : extOf name = "csv"
      · simp only [load_file, if_pos hc] at he
        cases hu : utf8Decode bytes with
        | some s =>
          rw [hu] at he
          exact csvLoadU_err s e he
        | none =>
          rw [hu] at he
          exact csvLoadL_err _ e he
      · simp only [load_file, if_neg hc, if_pos hj] at he
        cases hp : jsonParse bytes with
        | some j =>
          rw [hp] at he
          exact loadJsonValue_err j e he
        | none =>
          rw [hp] at he
          cases he
          rfl
  · intro hc
    constructor
    · intro s hu
      simp only [load_file, if_pos hc, hu]
    · intro hu
      simp only [load_file, if_pos hc, hu]

/-- C3 witness: `C3_load_error_taxonomy` at concrete inputs — a txt
extension is rejected as unsupported, a csv with valid UTF-8 bytes takes
the UTF-8 path, and a csv with an invalid UTF-8 byte takes the Latin-1
fallback. -/
theorem C3_load_error_taxonomy_witness :
    (∃ m, load_file "data.txt" [65] = .error (.unsupportedFormat m)) ∧
    (∀ e, load_file "t.csv" [65] = .error e → e.isParseErr = true) ∧
    load_file "t.csv" [65, 10, 49] = csvLoadU ['A', '\n', '1'] ∧
    load_file "t.csv" [255] = csvLoadL (latin1Decode [255]) := by
  refine ⟨(C3_load_error_taxonomy "data.txt" [65]).1 (by with_unfolding_all decide),
    (C3_load_error_taxonomy "t.csv" [65]).2.1 (by with_unfolding_all decide),
    ((C3_load_error_taxonomy "t.csv" [65, 10, 49]).2.2 (by with_unfolding_all decide)).1
      ['A', '\n', '1'] (by with_unfolding_all decide),
    ((C3_load_error_taxonomy "t.csv" [255]).2.2 (by with_unfolding_all decide)).2
      (by with_unfolding_all decide)⟩

/-- C4: `Loader.load` dispatches on the JSON root shape: an array of
records becomes one row per element, a root object with an array under
`data` is treated exactly like that array, any other root object becomes
a single-row table, and any other shape (an array containing a
non-record, or a non-array non-object root) is a `ParseError`. -/
theorem C4_json_shape_dispatch (j : JsonV) :
    (∀ xs, j = JsonV.arr xs → (∀ r ∈ xs, r.isObj = true) →
      loadJsonValue j = .ok (jsonNormalize xs) ∧
      (jsonNormalize xs).nrows = xs.length) ∧
    (∀ xs, j = JsonV.arr xs → (∃ r ∈ xs, ¬ r.isObj = true) →
      ∃ m, loadJsonValue j = .error (.parseError m)) ∧
    (∀ kvs xs, j = JsonV.obj kvs → kvs.lookup "data" = some (JsonV.arr xs) →
      loadJsonValue j = loadJsonValue (JsonV.arr xs)) ∧
    (∀ kvs, j = JsonV.obj kvs →
      (∀ xs, kvs.lookup "data" ≠ some (JsonV.arr xs)) →
      loadJsonValue j = .ok (singleRowFrame kvs) ∧
      (singleRowFrame kvs).nrows = 1) ∧
    ((∀ xs, j ≠ JsonV.arr xs) → (∀ kvs, j ≠ JsonV.obj kvs) →
      ∃ m, loadJsonValue j = .error (.parseError m)) := by
  refine ⟨?_, ?_, ?_, ?_, ?_⟩
  · rintro xs rfl hobj
    have hall : xs.all JsonV.isObj = true := List.all_eq_true.mpr hobj
    constructor
    · simp only [loadJsonValue, if_pos hall]
    · simp [jsonNormalize, DFrame.nrows]
  · rintro xs rfl ⟨r, hr, hno⟩
    have hall : ¬ xs.all JsonV.isObj = true := by
      intro hh
      exact hno (List.all_eq_true.mp hh r hr)
    simp only [loadJsonValue, if_neg hall]
    exact ⟨_, rfl⟩
  · rintro kvs xs rfl hd
    simp only [loadJsonValue, hd]
  · rintro kvs rfl hd
    refine ⟨?_, rfl⟩
    cases hl : kvs.lookup "data" with
    | none => simp only [loadJsonValue, hl]
    | some v =>
      cases v with
      | arr xs => exact absurd hl (hd xs)
      | null => simp only [loadJsonValue, hl]
      | boolv b => simp only [loadJsonValue, hl]
      | num q => simp only [loadJsonValue, hl]
      | str s => simp only [loadJsonValue, hl]
      | obj kvs2 => simp only [loadJsonValue, hl]
  · intro ha ho
    cases j with
    | null => exact ⟨_, rfl⟩
    | boolv b => exact ⟨_, rfl⟩
    | num q => exact ⟨_, rfl⟩
    | str s => exact ⟨_, rfl⟩
    | arr xs => exact absurd rfl (ha xs)
    | obj kvs => exact absurd rfl (ho kvs)

/-- C4 witness: `C4_json_shape_dispatch` on concrete roots — an array of
two records, an object wrapping that array under `data`, a plain object
without `data`, and a bare number. -/
theorem C4_json_shape_dispatch_witness :
    (loadJsonValue (JsonV.arr [JsonV.obj [("a", JsonV.num 1)],
        JsonV.obj [("a", JsonV.num 2)]]) =
      .ok (jsonNormalize [JsonV.obj [("a", JsonV.num 1)],
        JsonV.obj [("a", JsonV.num 2)]]) ∧
     (jsonNormalize [JsonV.obj [("a", JsonV.num 1)],
        JsonV.obj [("a", JsonV.num 2)]]).nrows = 2) ∧
    loadJsonValue (JsonV.obj [("data",
        JsonV.arr [JsonV.obj [("a", JsonV.num 1)]])]) =
      loadJsonValue (JsonV.arr [JsonV.obj [("a", JsonV.num 1)]]) ∧
    (loadJsonValue (JsonV.obj [("b", JsonV.num 3)]) =
      .ok (singleRowFrame [("b", JsonV.num 3)]) ∧
     (singleRowFrame [("b", JsonV.num 3)]).nrows = 1) ∧
    (∃ m, loadJsonValue (JsonV.num 7) = .error (.parseError m)) := by
  refine ⟨?_, ?_, ?_, ?_⟩
  · have h := (C4_json_shape_dispatch (JsonV.arr [JsonV.obj [("a", JsonV.num 1)],
      JsonV.obj [("a", JsonV.num 2)]])).1 _ rfl (by decide)
    exact h
  · exact (C4_json_shape_dispatch (JsonV.obj [("data",
      JsonV.arr [JsonV.obj [("a", JsonV.num 1)]])])).2.2.1 _ _ rfl rfl
  · exact (C4_json_shape_dispatch (JsonV.obj [("b", JsonV.num 3)])).2.2.2.1 _ rfl
      (by intro xs h; cases h)
  · exact (C4_json_shape_dispatch (JsonV.num 7)).2.2.2.2
      (by intro xs h; cases h) (by intro kvs h; cases h)

theorem lookup_map_self {α : Type} (l : List String) (f : String → α) (c : String) :
    (l.map (fun a => (a, f a))).lookup c = if c ∈ l then some (f c) else none := by
  induction l with
  | nil => simp
  | cons a t ih =>
    by_cases h : c = a
    · subst h
      simp [List.lookup]
    · have hb : (c == a) = false := beq_eq_false_iff_ne.mpr h
      simp only [List.map_cons, List.lookup, hb, ih, List.mem_cons]
      simp [h]

theorem lookup_filterMap_pos (l : List String) (f : String → ℕ) (hnd : l.Nodup) (c : String) :
    (l.filterMap (fun a => if 0 < f a then some (a, f a) else none)).lookup c =
      if c ∈ l ∧ 0 < f c then some (f c) else none := by
  induction l with
  | nil => simp
  | cons a t ih =>
    have hnd' : t.Nodup := hnd.of_cons
    rw [List.filterMap_cons]
    by_cases hf : 0 < f a
    · rw [if_pos hf]
      by_cases h : c = a
      · subst h
        simp [List.lookup, hf]
      · have hb : (c == a) = false := beq_eq_false_iff_ne.mpr h
        simp only [List.lookup, hb, ih hnd', List.mem_cons]
        simp [h]
    · rw [if_neg hf, ih hnd']
      by_cases h : c = a
      · subst h
        have hnm : c ∉ t := (List.nodup_cons.mp hnd).1
        simp [hnm, hf]
      · simp [h]

/-- C5: `analyze_data` is a total function; on a container with no
numeric columns it omits `numeric_summary`, `correlation`,
`potential_outliers` and `distribution` instead of failing, and on a
container with zero rows it reports `row_count = 0`. -/
theorem C5_analyze_total (df : DFrame) :
    (numericCols df = [] →
      (analyze_data df).numeric_summary = none ∧
      (analyze_data df).correlation = none ∧
      (analyze_data df).potential_outliers = none ∧
      (analyze_data df).distribution = none) ∧
    (df.nrows = 0 → (analyze_data df).row_count = 0) := by
  constructor
  · intro h
    refine ⟨?_, ?_, ?_, ?_⟩ <;>
      simp [analyze_data, outlierEntries, h]
  · intro h
    simp [analyze_data, h]

/-- C5 witness: `C5_analyze_total` on the empty container. -/
theorem C5_analyze_total_witness :
    (analyze_data { columns := [], rows := [] }).numeric_summary = none ∧
    (analyze_data { columns := [], rows := [] }).correlation = none ∧
    (analyze_data { columns := [], rows := [] }).potential_outliers = none ∧
    (analyze_data { columns := [], rows := [] }).distribution = none ∧
    (analyze_data { columns := [], rows := [] }).row_count = 0 := by
  obtain ⟨h1, h2⟩ := C5_analyze_total { columns := [], rows := [] }
  obtain ⟨a, b, c, d⟩ := h1 rfl
  exact ⟨a, b, c, d, h2 rfl⟩

/-- C7: for a numeric column the `potential_outliers` entry equals the
count of values strictly outside `[Q1 - 1.5*IQR, Q3 + 1.5*IQR]` and is
present exactly when that count is positive; when `IQR = 0` (both
quartiles equal some `q`) the count is the number of values different
from the degenerate bound `q`. -/
theorem C7_outlier_counts (df : DFrame) (c : String)
    (hnd : df.columns.Nodup) (hc : c ∈ numericCols df) :
    (olookup (analyze_data df).potential_outliers c =
      if 0 < outlierCount df c then some (outlierCount df c) else none) ∧
    (∀ q : ℚ, quantileQ (df.numsOf c) 1 4 = some q →
      quantileQ (df.numsOf c) 3 4 = some q →
      outlierCount df c = (df.getCol c).countP (fun cell =>
        match cell.toNum with
        | some v => decide (v ≠ q)
        | none => false)) := by
  have hnd' : (numericCols df).Nodup := hnd.filter _
  constructor
  · show olookup (if (outlierEntries df).isEmpty then none else some (outlierEntries df)) c = _
    by_cases h0 : (outlierEntries df).isEmpty
    · rw [if_pos h0]
      have hnil : outlierEntries df = [] := List.isEmpty_iff.mp h0
      have hz : ¬ 0 < outlierCount df c := by
        intro hpos
        have := (List.filterMap_eq_nil_iff.mp hnil) c hc
        rw [if_pos hpos] at this
        exact Option.noConfusion this
      simp [olookup, hz]
    · rw [if_neg h0]
      show (outlierEntries df).lookup c = _
      rw [outlierEntries, lookup_filterMap_pos _ _ hnd' c]
      by_cases hp : 0 < outlierCount df c
      · rw [if_pos ⟨hc, hp⟩, if_pos hp]
      · rw [if_neg (fun hh => hp hh.2), if_neg hp]
  · intro q h1 h3
    simp only [outlierCount, h1, h3]
    have harith1 : q - 3/2 * (q - q) = q := by ring
    have harith2 : q + 3/2 * (q - q) = q := by ring
    rw [harith1, harith2]
    apply List.countP_congr
    intro cell _
    cases hcell : cell.toNum with
    | none => simp
    | some v =>
      simp [lt_or_lt_iff_ne]

theorem pairUp_swap (xs ys : List Cell) :
    pairUp ys xs = (pairUp xs ys).map Prod.swap := by
  unfold pairUp
  rw [← List.zip_swap xs ys, List.filterMap_map, List.map_filterMap]
  congr 1
  funext p
  obtain ⟨u, w⟩ := p
  cases hu : u.toNum <;> cases hw : w.toNum <;> simp [Prod.swap, hu, hw]

theorem sxy_swap (ps : List (ℚ × ℚ)) : sxy (ps.map Prod.swap) = sxy ps := by
  unfold sxy
  rw [List.map_map, List.map_map, List.map_map]
  have h1 : (Prod.fst ∘ Prod.swap : ℚ × ℚ → ℚ) = Prod.snd := rfl
  have h2 : (Prod.snd ∘ Prod.swap : ℚ × ℚ → ℚ) = Prod.fst := rfl
  rw [h1, h2]
  apply congrArg
  apply List.map_congr_left
  intro p _
  simp only [Function.comp_apply, Prod.fst_swap, Prod.snd_swap]
  ring

theorem corrSym_symm (xs ys : List Cell) : corrSym ys xs = corrSym xs ys := by
  simp only [corrSym]
  rw [pairUp_swap xs ys, List.map_map, List.map_map, sxy_swap]
  have e1 : ((fun p : ℚ × ℚ => (p.1, p.1)) ∘ Prod.swap) = (fun p : ℚ × ℚ => (p.2, p.2)) := rfl
  have e2 : ((fun p : ℚ × ℚ => (p.2, p.2)) ∘ Prod.swap) = (fun p : ℚ × ℚ => (p.1, p.1)) := rfl
  rw [e1, e2,
    mul_comm (sxy ((pairUp xs ys).map fun p => (p.2, p.2)))
      (sxy ((pairUp xs ys).map fun p => (p.1, p.1)))]

theorem corrRounded_symm (xs ys : List Cell) : corrRounded xs ys = corrRounded ys xs := by
  unfold corrRounded
  rw [corrSym_symm]

theorem pairUp_self (xs : List Cell) :
    pairUp xs xs = (xs.filterMap Cell.toNum).map (fun a => (a, a)) := by
  induction xs with
  | nil => rfl
  | cons c t ih =>
    simp only [pairUp, List.zip_cons_cons, List.filterMap_cons] at *
    cases hc : c.toNum <;> simp [hc, ih]

theorem sxy_dup (vs : List ℚ) : sxy (vs.map (fun a => (a, a))) = devSq vs := by
  unfold sxy devSq
  rw [List.map_map, List.map_map, List.map_map]
  have h1 : (Prod.fst ∘ (fun a : ℚ => (a, a))) = id := rfl
  have h2 : (Prod.snd ∘ (fun a : ℚ => (a, a))) = id := rfl
  rw [h1, h2, List.map_id]
  apply congrArg
  apply List.map_congr_left
  intro v _
  simp only [Function.comp_apply]
  ring

theorem devSq_nonneg (xs : List ℚ) : 0 ≤ devSq xs := by
  apply List.sum_nonneg
  intro a ha
  simp only [devSq, List.mem_map] at ha
  obtain ⟨v, _, rfl⟩ := ha
  positivity

set_option maxRecDepth 10000 in
theorem round2Sym_one (S : ℚ) (hS : 0 < S) :
    round2Sym (S / (S * S)) (S * S) = 1 := by
  have hna : S ≠ 0 := ne_of_gt hS
  have hy2 : 10000 * (S / (S * S)) ^ 2 * (S * S) = 10000 := by
    field_simp
    ring
  simp only [round2Sym]
  rw [hy2]
  have hf : ratSqrtFloor 10000 = 100 := by with_unfolding_all decide
  rw [hf]
  have hcond : (10000 : ℚ) < (((100 : ℕ) : ℚ) + 1/2) ^ 2 := by norm_num
  rw [if_pos hcond]
  have hc : ¬ (S / (S * S) < 0) := by
    apply not_lt.mpr
    positivity
  rw [if_neg hc]
  norm_num

theorem corrRounded_self (xs : List Cell) (h : devSq (xs.filterMap Cell.toNum) ≠ 0) :
    corrRounded xs xs = some 1 := by
  have hpos : 0 < devSq (xs.filterMap Cell.toNum) :=
    lt_of_le_of_ne (devSq_nonneg _) (Ne.symm h)
  unfold corrRounded
  simp only [corrSym]
  rw [pairUp_self, List.map_map, List.map_map]
  have e1 : ((fun p : ℚ × ℚ => (p.1, p.1)) ∘ (fun a : ℚ => (a, a))) = (fun a : ℚ => (a, a)) := rfl
  have e2 : ((fun p : ℚ × ℚ => (p.2, p.2)) ∘ (fun a : ℚ => (a, a))) = (fun a : ℚ => (a, a)) := rfl
  rw [e1, e2, sxy_dup]
  rw [if_neg (mul_ne_zero h h)]
  rw [Option.map_some']
  rw [round2Sym_one _ hpos]

theorem mlookup_corrMatrix (df : DFrame) (a b : String) :
    mlookup (some (corrMatrix df (numericCols df))) a b =
      if a ∈ numericCols df ∧ b ∈ numericCols df then
        some (corrRounded (df.getCol a) (df.getCol b)) else none := by
  simp only [mlookup, corrMatrix, Option.some_bind]
  rw [lookup_map_self]
  by_cases ha : a ∈ numericCols df
  · rw [if_pos ha]
    simp only [Option.some_bind]
    rw [lookup_map_self]
    by_cases hb : b ∈ numericCols df
    · rw [if_pos hb, if_pos ⟨ha, hb⟩]
    · rw [if_neg hb, if_neg (fun hh => hb hh.2)]
  · rw [if_neg ha, if_neg (fun hh => ha hh.1)]
    rfl

/-- C6: the `correlation` field is present iff the container has at least
2 numeric columns; when present it is a symmetric matrix of pairwise
Pearson coefficients rounded to 2 decimals, and the diagonal entry of
every numeric column with non-zero variance is exactly 1. -/
theorem C6_correlation_matrix (df : DFrame) :
    ((analyze_data df).correlation.isSome ↔ 2 ≤ (numericCols df).length) ∧
    (∀ c1 c2 : String, mlookup (analyze_data df).correlation c1 c2 =
        mlookup (analyze_data df).correlation c2 c1) ∧
    (∀ c ∈ numericCols df, 2 ≤ (numericCols df).length →
      devSq (df.numsOf c) ≠ 0 →
      mlookup (analyze_data df).correlation c c = some (some 1)) := by
  have hcorr : (analyze_data df).correlation =
      if (numericCols df).isEmpty then none
      else if 1 < (numericCols df).length then
        some (corrMatrix df (numericCols df)) else none := rfl
  refine ⟨?_, ?_, ?_⟩
  · rw [hcorr]
    by_cases he : (numericCols df).isEmpty
    · have h0 : (numericCols df).length = 0 := by
        simp [List.isEmpty_iff.mp he]
      simp [he, h0]
    · rw [if_neg he]
      by_cases hl : 1 < (numericCols df).length
      · simp only [if_pos hl, Option.isSome_some, true_iff]
        omega
      · simp only [if_neg hl, Option.isSome_none, Bool.false_eq_true, false_iff]
        omega
  · intro c1 c2
    rw [hcorr]
    by_cases he : (numericCols df).isEmpty
    · simp [he, mlookup]
    · rw [if_neg he]
      by_cases hl : 1 < (numericCols df).length
      · rw [if_pos hl, mlookup_corrMatrix, mlookup_corrMatrix]
        by_cases h12 : c1 ∈ numericCols df ∧ c2 ∈ numericCols df
        · rw [if_pos h12, if_pos ⟨h12.2, h12.1⟩, corrRounded_symm]
        · rw [if_neg h12, if_neg (fun hh => h12 ⟨hh.2, hh.1⟩)]
      · rw [if_neg hl]
        rfl
  · intro c hcm hl hvar
    rw [hcorr]
    have he : ¬ (numericCols df).isEmpty = true := by
      intro hh
      rw [List.isEmpty_iff.mp hh] at hcm
      cases hcm
    rw [if_neg he, if_pos (by omega : 1 < (numericCols df).length)]
    rw [mlookup_corrMatrix, if_pos ⟨hcm, hcm⟩]
    have : corrRounded (df.getCol c) (df.getCol c) = some 1 :=
      corrRounded_self (df.getCol c) hvar
    rw [this]

/-- Two perfectly correlated numeric columns. -/
def dfXY : DFrame :=
  { columns := ["x", "y"],
    rows := [[Cell.num 1, Cell.num 2], [Cell.num 2, Cell.num 4],
             [Cell.num 3, Cell.num 6]] }

/-- C6 witness: `C6_correlation_matrix` on `dfXY` (two numeric columns,
non-zero variance). -/
theorem C6_correlation_matrix_witness :
    ((analyze_data dfXY).correlation.isSome ↔ 2 ≤ (numericCols dfXY).length) ∧
    mlookup (analyze_data dfXY).correlation "x" "y" =
      mlookup (analyze_data dfXY).correlation "y" "x" ∧
    mlookup (analyze_data dfXY).correlation "x" "x" = some (some 1) := by
  obtain ⟨h1, h2, h3⟩ := C6_correlation_matrix dfXY
  exact ⟨h1, h2 "x" "y",
    h3 "x" (by with_unfolding_all decide) (by with_unfolding_all decide)
      (by with_unfolding_all decide)⟩

theorem abs_mul_sqrt_lt_half_iff (q r : ℚ) (hr : 0 ≤ r) :
    |(q : ℝ) * Real.sqrt (r : ℝ)| < 1/2 ↔ q ^ 2 * r < 1/4 := by
  have hr' : (0 : ℝ) ≤ (r : ℝ) := by exact_mod_cast hr
  have h1 : |(q : ℝ) * Real.sqrt (r : ℝ)| = Real.sqrt ((q : ℝ) ^ 2 * (r : ℝ)) := by
    rw [Real.sqrt_mul (sq_nonneg _), Real.sqrt_sq_eq_abs, abs_mul,
      abs_of_nonneg (Real.sqrt_nonneg _)]
  rw [h1, Real.sqrt_lt' (by norm_num : (0 : ℝ) < 1/2),
    show ((1 : ℝ)/2) ^ 2 = 1/4 by norm_num]
  rw [show (q : ℝ) ^ 2 * (r : ℝ) = ((q ^ 2 * r : ℚ) : ℝ) by push_cast; ring,
    show (1/4 : ℝ) = ((1/4 : ℚ) : ℝ) by norm_num]
  exact Rat.cast_lt

theorem abs_roundHalfEven_sub_le (y : ℚ) :
    |((roundHalfEven y : ℤ) : ℚ) - y| ≤ 1/2 := by
  have h1 : ((⌊y⌋ : ℤ) : ℚ) ≤ y := Int.floor_le y
  have h2 : y < ((⌊y⌋ : ℤ) : ℚ) + 1 := Int.lt_floor_add_one y
  simp only [roundHalfEven]
  split_ifs with c1 c2 c3 <;> rw [abs_le] <;> push_cast at * <;>
    constructor <;> linarith

theorem abs_roundHE2_sub_le (x : ℚ) : |roundHE2 x - x| ≤ 1/200 := by
  have h := abs_roundHalfEven_sub_le (100 * x)
  unfold roundHE2
  have he : ((roundHalfEven (100 * x) : ℤ) : ℚ)/100 - x =
      (((roundHalfEven (100 * x) : ℤ) : ℚ) - 100 * x)/100 := by ring
  rw [he, abs_div, show |(100 : ℚ)| = 100 by norm_num]
  linarith

theorem skewPD_isSome (xs : List ℚ) (hn : 3 ≤ xs.length) :
    ∃ p, skewPD xs = some p := by
  simp only [skewPD, if_neg (by omega : ¬ xs.length < 3)]
  split_ifs <;> exact ⟨_, rfl⟩

theorem kurtPD_isSome (xs : List ℚ) (hn : 4 ≤ xs.length) :
    ∃ k, kurtPD xs = some k := by
  simp only [kurtPD, if_neg (by omega : ¬ xs.length < 4)]
  split_ifs <;> exact ⟨_, rfl⟩

theorem skewPD_rad_nonneg (xs : List ℚ) (p : ℚ × ℚ) (h : skewPD xs = some p) :
    0 ≤ p.2 := by
  have hs2 : 0 ≤ (xs.map (fun v => (v - meanOf xs) ^ 2)).sum := by
    apply List.sum_nonneg
    intro a ha
    simp only [List.mem_map] at ha
    obtain ⟨v, _, rfl⟩ := ha
    positivity
  simp only [skewPD] at h
  by_cases h3 : xs.length < 3
  · rw [if_pos h3] at h
    cases h
  · rw [if_neg h3] at h
    by_cases h0 : (xs.map (fun v => (v - meanOf xs) ^ 2)).sum = 0
    · rw [if_pos h0] at h
      cases h
      exact le_rfl
    · rw [if_neg h0] at h
      cases h
      have hlen' : (3 : ℚ) ≤ (xs.length : ℚ) := by
        exact_mod_cast (by omega : 3 ≤ xs.length)
      have hge : 0 ≤ (xs.length : ℚ) - 1 := by linarith
      exact mul_nonneg hge hs2

/-- C8: for every numeric column with at least 4 observations, the
`distribution` entry reports the skewness and kurtosis rounded to 2
decimals (the rounded kurtosis is within 1/200 of the exact value), and
its `is_normal` flag is true iff the absolute (unrounded) skewness and
kurtosis are both below 0.5 — with the skewness compared as the real
number `c·√r`. -/
theorem C8_distribution_entry (df : DFrame) (c : String)
    (hc : c ∈ numericCols df) (hn : 4 ≤ (df.numsOf c).length) :
    ∃ s : ℚ × ℚ, ∃ k : ℚ,
      skewPD (df.numsOf c) = some s ∧
      kurtPD (df.numsOf c) = some k ∧
      olookup (analyze_data df).distribution c =
        some { skewness := some (round2Sym s.1 s.2),
               kurtosis := some (roundHE2 k),
               is_normal := decide (s.1 ^ 2 * s.2 < 1/4) && decide (|k| < 1/2) } ∧
      ((decide (s.1 ^ 2 * s.2 < 1/4) && decide (|k| < 1/2)) = true ↔
        (|(s.1 : ℝ) * Real.sqrt (s.2 : ℝ)| < 1/2 ∧ |(k : ℝ)| < 1/2)) ∧
      |roundHE2 k - k| ≤ 1/200 := by
  obtain ⟨s, hs⟩ := skewPD_isSome (df.numsOf c) (by omega)
  obtain ⟨k, hk⟩ := kurtPD_isSome (df.numsOf c) hn
  refine ⟨s, k, hs, hk, ?_, ?_, abs_roundHE2_sub_le k⟩
  · have hd : (analyze_data df).distribution =
        if (numericCols df).isEmpty then none
        else some ((numericCols df).map (fun c => (c, distEntry (df.numsOf c)))) := rfl
    have hne : ¬ (numericCols df).isEmpty = true := by
      intro hh
      rw [List.isEmpty_iff.mp hh] at hc
      cases hc
    rw [hd, if_neg hne]
    simp only [olookup, Option.some_bind]
    rw [lookup_map_self, if_pos hc]
    simp [distEntry, hs, hk]
  · have hrad := skewPD_rad_nonneg _ _ hs
    have hiff1 := abs_mul_sqrt_lt_half_iff s.1 s.2 hrad
    have hiff2 : |(k : ℝ)| < 1/2 ↔ |k| < 1/2 := by
      rw [← Rat.cast_abs, show (1/2 : ℝ) = ((1/2 : ℚ) : ℝ) by norm_num]
      exact Rat.cast_lt
    simp only [Bool.and_eq_true, decide_eq_true_eq]
    rw [hiff1, hiff2]

/-- A one-column frame with 4 observations for the distribution entry. -/
def dfK : DFrame :=
  { columns := ["v"],
    rows := [[Cell.num 1], [Cell.num 2], [Cell.num 3], [Cell.num 4]] }

/-- C8 witness: `C8_distribution_entry` on `dfK`. -/
theorem C8_distribution_entry_witness :
    ∃ s : ℚ × ℚ, ∃ k : ℚ,
      skewPD (dfK.numsOf "v") = some s ∧
      kurtPD (dfK.numsOf "v") = some k ∧
      olookup (analyze_data dfK).distribution "v" =
        some { skewness := some (round2Sym s.1 s.2),
               kurtosis := some (roundHE2 k),
               is_normal := decide (s.1 ^ 2 * s.2 < 1/4) && decide (|k| < 1/2) } ∧
      ((decide (s.1 ^ 2 * s.2 < 1/4) && decide (|k| < 1/2)) = true ↔
        (|(s.1 : ℝ) * Real.sqrt (s.2 : ℝ)| < 1/2 ∧ |(k : ℝ)| < 1/2)) ∧
      |roundHE2 k - k| ≤ 1/200 :=
  C8_distribution_entry dfK "v" (by with_unfolding_all decide)
    (by with_unfolding_all decide)

/-- A one-column frame with a degenerate IQR and one outlier. -/
def dfOut : DFrame :=
  { columns := ["v"],
    rows := [[Cell.num 1], [Cell.num 1], [Cell.num 1], [Cell.num 1], [Cell.num 100]] }

/-- C7 witness: `C7_outlier_counts` on `dfOut` (quartiles both 1,
IQR = 0, a single value different from the bound). -/
theorem C7_outlier_counts_witness :
    olookup (analyze_data dfOut).potential_outliers "v" = some 1 ∧
    outlierCount dfOut "v" = (dfOut.getCol "v").countP (fun cell =>
      match cell.toNum with
      | some v => decide (v ≠ 1)
      | none => false) ∧
    outlierCount dfOut "v" = 1 := by
  have h := C7_outlier_counts dfOut "v" (by decide) (by with_unfolding_all decide)
  have hq1 : quantileQ (dfOut.numsOf "v") 1 4 = some 1 := by with_unfolding_all decide
  have hq3 : quantileQ (dfOut.numsOf "v") 3 4 = some 1 := by with_unfolding_all decide
  have hcnt : outlierCount dfOut "v" = 1 := by with_unfolding_all decide
  refine ⟨?_, h.2 1 hq1 hq3, hcnt⟩
  rw [h.1, hcnt]
  norm_num

end DataViz
